import Mathlib

/-! Managed service account add-on helpers

A shallow embedding of `pkg/utils/managed_service_account_addon.go`.

The hub cluster is reached through `dynamic.Interface`.  Here the interface is a record of
deterministic transition functions over an arbitrary state type `σ`, and every call the
helpers issue is appended to a log, so that statements such as "no Patch is issued" can be
made about the embedding itself.

Go results of shape `(ptr, error)` are rendered as `Except Error (Option T)`:
`(nil, err)` is `.error err`, `(obj, nil)` is `.ok (some obj)` and `(nil, nil)` is `.ok none`.
An `error` result alone is `Option Error`, with `none` for `nil`.
-/

namespace Utils

/-! ## Errors -/

/-- A non-nil Go `error` as this package observes it: the answer `errors.IsNotFound` gives
for it, and its message. -/
structure Error where
  notFound : Bool
  message : String
deriving DecidableEq, Repr

/-- Go `errors.IsNotFound(err)`; `none` stands for the nil error. -/
def IsNotFound : Option Error → Bool
  | none => false
  | some e => e.notFound

/-- Go `fmt.Errorf(msg)`: a plain error, which is not an API status error and so is never
classified as NotFound. -/
def Errorf (msg : String) : Error :=
  { notFound := false, message := msg }

/-! ## Untyped objects -/

/-- The values held by `map[string]interface{}` in an unstructured object. -/
inductive Value where
  | null
  | bool (b : Bool)
  | num (n : Int)
  | str (s : String)
  | arr (items : List Value)
  | obj (fields : List (String × Value))

/-- Go `unstructured.Unstructured`. -/
structure Unstructured where
  Object : List (String × Value)

/-- Go `unstructured.NestedString` for a two-field path, as `GetName` and `GetNamespace` use
it: the empty string when the path is missing or does not hold a string. -/
def nestedString (o : List (String × Value)) (f1 f2 : String) : String :=
  match o.lookup f1 with
  | some (Value.obj m) =>
    match m.lookup f2 with
    | some (Value.str s) => s
    | _ => ""
  | _ => ""

/-- Go `(*Unstructured).GetName`. -/
def Unstructured.GetName (u : Unstructured) : String :=
  nestedString u.Object "metadata" "name"

/-- Go `(*Unstructured).GetNamespace`. -/
def Unstructured.GetNamespace (u : Unstructured) : String :=
  nestedString u.Object "metadata" "namespace"

/-! ## Typed objects -/

/-- Go `metav1.TypeMeta`. -/
structure TypeMeta where
  Kind : String
  APIVersion : String
deriving DecidableEq, Repr

/-- Go `metav1.ObjectMeta`, the fields this package sets. -/
structure ObjectMeta where
  Name : String
  Namespace : String
deriving DecidableEq, Repr

/-- Go `addonv1alpha1.ManagedClusterAddOnSpec`. -/
structure ManagedClusterAddOnSpec where
  InstallNamespace : String
deriving DecidableEq, Repr

/-- Go `metav1.Condition`, the fields this package reads; `Type_` is the Go field `Type`. -/
structure Condition where
  Type_ : String
  Status : String
deriving DecidableEq, Repr

/-- Go `addonv1alpha1.ManagedClusterAddOnStatus`. -/
structure ManagedClusterAddOnStatus where
  Conditions : List Condition
deriving DecidableEq, Repr

/-- Go `addonv1alpha1.ManagedClusterAddOn`. -/
structure ManagedClusterAddOn where
  typeMeta : TypeMeta
  objectMeta : ObjectMeta
  Spec : ManagedClusterAddOnSpec
  Status : ManagedClusterAddOnStatus
deriving DecidableEq, Repr

/-- Go `clusterv1.ManagedCluster`; only its name is read. -/
structure ManagedCluster where
  Name : String
deriving DecidableEq, Repr

/-- Go `addonv1alpha1.ManagedClusterAddOnConditionAvailable`. -/
def ManagedClusterAddOnConditionAvailable : String := "Available"

/-! ## The dynamic client -/

/-- Go `schema.GroupVersionResource`. -/
structure GroupVersionResource where
  Group : String
  Version : String
  Resource : String
deriving DecidableEq, Repr

/-- Go `types.PatchType`. -/
inductive PatchType where
  | JSONPatchType
  | MergePatchType
  | StrategicMergePatchType
  | ApplyPatchType
deriving DecidableEq, Repr

/-- Go `dynamic.Interface`, one field per verb the package uses.  Each verb takes the
resource, the namespace (empty for a cluster-wide call), its arguments and the store's
current state, and gives its answer with the store's next state. -/
structure Interface (σ : Type) where
  list : GroupVersionResource → String → σ → Except Error (List Unstructured) × σ
  get : GroupVersionResource → String → String → σ → Except Error Unstructured × σ
  create : GroupVersionResource → String → Unstructured → σ → Except Error Unstructured × σ
  patch : GroupVersionResource → String → String → PatchType → String → σ →
    Except Error Unstructured × σ
  delete : GroupVersionResource → String → String → σ → Option Error × σ

/-- One call made on the dynamic client. -/
inductive Call where
  | List (gvr : GroupVersionResource) (ns : String)
  | Get (gvr : GroupVersionResource) (ns name : String)
  | Create (gvr : GroupVersionResource) (ns : String) (obj : Unstructured)
  | Patch (gvr : GroupVersionResource) (ns name : String) (pt : PatchType) (data : String)
  | Delete (gvr : GroupVersionResource) (ns name : String)

/-- Whether a call is a Create. -/
def Call.isCreate : Call → Bool
  | Call.Create _ _ _ => true
  | _ => false

/-- Whether a call is a Patch. -/
def Call.isPatch : Call → Bool
  | Call.Patch _ _ _ _ _ => true
  | _ => false

/-- The store together with the log of the calls made on it so far, oldest first. -/
structure Hub (σ : Type) where
  state : σ
  calls : List Call

/-- The calls logged in `w2` after the point `w1` was reached. -/
def callsSince {σ : Type} (w1 w2 : Hub σ) : List Call :=
  w2.calls.drop w1.calls.length

/-- `hubClient.Resource(gvr).List(...)` (namespace empty) with the call logged. -/
def Interface.List {σ : Type} (c : Interface σ) (gvr : GroupVersionResource) (ns : String)
    (w : Hub σ) : Except Error (List Unstructured) × Hub σ :=
  ((c.list gvr ns w.state).1,
    { state := (c.list gvr ns w.state).2, calls := w.calls ++ [Call.List gvr ns] })

/-- `hubClient.Resource(gvr).Namespace(ns).Get(name)` with the call logged. -/
def Interface.Get {σ : Type} (c : Interface σ) (gvr : GroupVersionResource) (ns name : String)
    (w : Hub σ) : Except Error Unstructured × Hub σ :=
  ((c.get gvr ns name w.state).1,
    { state := (c.get gvr ns name w.state).2, calls := w.calls ++ [Call.Get gvr ns name] })

/-- `hubClient.Resource(gvr).Namespace(ns).Create(obj)` with the call logged. -/
def Interface.Create {σ : Type} (c : Interface σ) (gvr : GroupVersionResource) (ns : String)
    (obj : Unstructured) (w : Hub σ) : Except Error Unstructured × Hub σ :=
  ((c.create gvr ns obj w.state).1,
    { state := (c.create gvr ns obj w.state).2, calls := w.calls ++ [Call.Create gvr ns obj] })

/-- `hubClient.Resource(gvr).Namespace(ns).Patch(name, pt, data)` with the call logged. -/
def Interface.Patch {σ : Type} (c : Interface σ) (gvr : GroupVersionResource) (ns name : String)
    (pt : PatchType) (data : String) (w : Hub σ) : Except Error Unstructured × Hub σ :=
  ((c.patch gvr ns name pt data w.state).1,
    { state := (c.patch gvr ns name pt data w.state).2,
      calls := w.calls ++ [Call.Patch gvr ns name pt data] })

/-- `hubClient.Resource(gvr).Namespace(ns).Delete(name)` with the call logged. -/
def Interface.Delete {σ : Type} (c : Interface σ) (gvr : GroupVersionResource)
    (ns name : String) (w : Hub σ) : Option Error × Hub σ :=
  ((c.delete gvr ns name w.state).1,
    { state := (c.delete gvr ns name w.state).2, calls := w.calls ++ [Call.Delete gvr ns name] })

/-! ## Conversions -/

/-- The external `runtime.DefaultUnstructuredConverter.FromUnstructured` at type
`ManagedClusterAddOn`.  It is a library function taken as given; its failures are plain
errors with a message, never API status errors. -/
structure UnstructuredConverter where
  FromUnstructured : Unstructured → Except String ManagedClusterAddOn

/-- Go `unstructuredToManagedClusterAddon`. -/
def unstructuredToManagedClusterAddon (conv : UnstructuredConverter) (u : Unstructured) :
    Except Error ManagedClusterAddOn :=
  match conv.FromUnstructured u with
  | .error msg => .error (Errorf msg)
  | .ok mca => .ok mca

/-- The untyped form of one condition. -/
def conditionToValue (c : Condition) : Value :=
  Value.obj [("type", Value.str c.Type_), ("status", Value.str c.Status)]

/-- Modelled from the spec: `toUnstructured`, a helper of this package that is not in the
file, converts the typed add-on descriptor into the generic untyped resource map.  The spec
has the new descriptor constructed and created, so the conversion is modelled as succeeding,
field by field under the JSON names of the typed object. -/
def toUnstructured (mca : ManagedClusterAddOn) : Except Error Unstructured :=
  .ok { Object :=
    [ ("kind", Value.str mca.typeMeta.Kind),
      ("apiVersion", Value.str mca.typeMeta.APIVersion),
      ("metadata", Value.obj
        [ ("name", Value.str mca.objectMeta.Name),
          ("namespace", Value.str mca.objectMeta.Namespace) ]),
      ("spec", Value.obj [("installNamespace", Value.str mca.Spec.InstallNamespace)]),
      ("status", Value.obj
        [("conditions", Value.arr (mca.Status.Conditions.map conditionToValue))]) ] }

/-! ## The package -/

/-- Go `gvrMCH`. -/
def gvrMCH : GroupVersionResource :=
  { Group := "operator.open-cluster-management.io", Version := "v1",
    Resource := "multiclusterhubs" }

/-- Go `gvrMCE`. -/
def gvrMCE : GroupVersionResource :=
  { Group := "multicluster.openshift.io", Version := "v1", Resource := "multiclusterengines" }

/-- The local `gvr` of the three add-on functions. -/
def gvrAddon : GroupVersionResource :=
  { Group := "addon.open-cluster-management.io", Version := "v1alpha1",
    Resource := "managedclusteraddons" }

/-- Go `GetManagedServiceAccountAddon`. -/
def GetManagedServiceAccountAddon {σ : Type} (conv : UnstructuredConverter)
    (hubClient : Interface σ) (managedCluster : ManagedCluster) (w : Hub σ) :
    Except Error ManagedClusterAddOn × Hub σ :=
  match hubClient.Get gvrAddon managedCluster.Name "managed-serviceaccount" w with
  | (.error err, w1) => (.error err, w1)
  | (.ok uManagedServiceAccountAddon, w1) =>
    match unstructuredToManagedClusterAddon conv uManagedServiceAccountAddon with
    | .error err => (.error err, w1)
    | .ok managedServiceAccountAddon => (.ok managedServiceAccountAddon, w1)

/-- The error half of a Go `(obj, err)` result. -/
def errOf {α : Type} : Except Error α → Option Error
  | .error e => some e
  | .ok _ => none

/-- Go `DoesManagedServiceAccountAddonExist`. -/
def DoesManagedServiceAccountAddonExist {σ : Type} (conv : UnstructuredConverter)
    (hubClient : Interface σ) (managedCluster : ManagedCluster) (w : Hub σ) : Bool × Hub σ :=
  match GetManagedServiceAccountAddon conv hubClient managedCluster w with
  | (r, w1) =>
    if IsNotFound (errOf r) then (false, w1)
    else (true, w1)

/-- The loop of `IsManagedServiceAccountAddonAvailable` over the conditions, in order. -/
def availableLoop : List Condition → Bool
  | [] => false
  | condition :: rest =>
    if condition.Type_ = ManagedClusterAddOnConditionAvailable then
      if condition.Status = "True" then true
      else availableLoop rest
    else availableLoop rest

/-- Go `IsManagedServiceAccountAddonAvailable`. -/
def IsManagedServiceAccountAddonAvailable {σ : Type} (conv : UnstructuredConverter)
    (hubClient : Interface σ) (managedCluster : ManagedCluster) (w : Hub σ) : Bool × Hub σ :=
  match GetManagedServiceAccountAddon conv hubClient managedCluster w with
  | (.error _, w1) => (false, w1)
  | (.ok managedServiceAccountAddon, w1) =>
    (availableLoop managedServiceAccountAddon.Status.Conditions, w1)

/-- Go `GetMultiClusterHub`: the first hub of a cluster-wide list; no object and no error
when there is none. -/
def GetMultiClusterHub {σ : Type} (hubClient : Interface σ) (w : Hub σ) :
    Except Error (Option Unstructured) × Hub σ :=
  match hubClient.List gvrMCH "" w with
  | (.error err, w1) =>
    if IsNotFound (some err) then (.ok none, w1)
    else (.error err, w1)
  | (.ok uMCHList, w1) =>
    if uMCHList.length < 1 then (.ok none, w1)
    else (.ok uMCHList.head?, w1)

/-- Go `GetMultiClusterEngine`: the first engine of a cluster-wide list; an error when
there is none. -/
def GetMultiClusterEngine {σ : Type} (hubClient : Interface σ) (w : Hub σ) :
    Except Error Unstructured × Hub σ :=
  match hubClient.List gvrMCE "" w with
  | (.error err, w1) => (.error err, w1)
  | (.ok uMCEList, w1) =>
    match uMCEList with
    | [] => (.error (Errorf "MulticlusterEngine CR not found."), w1)
    | first :: _ => (.ok first, w1)

/-- The patch document of `EnableManagedServiceAccountFeature`, as `fmt.Sprintf` builds it
from its format and three arguments. -/
def patch : String :=
  "[\x7b\"op\":\"" ++ "add" ++ "\",\"path\":\"" ++ "/spec/componentConfig" ++ "\",\"value\":"
    ++ "\x7b\"managedServiceAccount\":\x7b\"enable\":true\x7d\x7d" ++ "\x7d]"

/-- The error of a Patch answer. -/
def patchErr {σ : Type} (r : Except Error Unstructured × Hub σ) : Option Error × Hub σ :=
  match r with
  | (.error err, w1) => (some err, w1)
  | (.ok _, w1) => (none, w1)

/-- Go `EnableManagedServiceAccountFeature`. -/
def EnableManagedServiceAccountFeature {σ : Type} (hubClient : Interface σ) (w : Hub σ) :
    Option Error × Hub σ :=
  match GetMultiClusterHub hubClient w with
  | (.error err, w1) => (some err, w1)
  | (.ok none, w1) =>
    match GetMultiClusterEngine hubClient w1 with
    | (.error err, w2) => (some err, w2)
    | (.ok mce, w2) =>
      patchErr (hubClient.Patch gvrMCE "" mce.GetName PatchType.JSONPatchType patch w2)
  | (.ok (some mch), w1) =>
    patchErr (hubClient.Patch gvrMCH mch.GetNamespace mch.GetName PatchType.JSONPatchType
      patch w1)

/-- The descriptor `CreateManagedServiceAccountAddon` builds when the add-on is absent. -/
def newManagedServiceAccountAddon (managedCluster : ManagedCluster) : ManagedClusterAddOn :=
  { typeMeta := { Kind := "ManagedClusterAddOn",
                  APIVersion := "addon.open-cluster-management.io/v1alpha1" },
    objectMeta := { Name := "managed-serviceaccount", Namespace := managedCluster.Name },
    Spec := { InstallNamespace := "open-cluster-management-managed-serviceaccount" },
    Status := { Conditions := [] } }

/-- Go `CreateManagedServiceAccountAddon`. -/
def CreateManagedServiceAccountAddon {σ : Type} (conv : UnstructuredConverter)
    (hubClient : Interface σ) (managedCluster : ManagedCluster) (w : Hub σ) :
    Except Error (Option ManagedClusterAddOn) × Hub σ :=
  match GetManagedServiceAccountAddon conv hubClient managedCluster w with
  | (r, w1) =>
    if IsNotFound (errOf r) then
      match toUnstructured (newManagedServiceAccountAddon managedCluster) with
      | .error err => (.error err, w1)
      | .ok uNewManagedServiceAccountAddon =>
        match hubClient.Create gvrAddon managedCluster.Name uNewManagedServiceAccountAddon w1 with
        | (.error err, w2) => (.error err, w2)
        | (.ok uManagedServiceAccountAddon, w2) =>
          match unstructuredToManagedClusterAddon conv uManagedServiceAccountAddon with
          | .error err => (.error err, w2)
          | .ok managedServiceAccountAddon => (.ok (some managedServiceAccountAddon), w2)
    else
      match r with
      | .error _ => (.ok none, w1)
      | .ok managedServiceAccountAddon => (.ok (some managedServiceAccountAddon), w1)

/-- Go `DeleteManagedServiceAccountAddon`. -/
def DeleteManagedServiceAccountAddon {σ : Type} (hubClient : Interface σ)
    (managedCluster : ManagedCluster) (w : Hub σ) : Option Error × Hub σ :=
  hubClient.Delete gvrAddon managedCluster.Name "managed-serviceaccount" w

/-- The object half of a Go `(obj, err)` result. -/
def objOf {α : Type} : Except Error (Option α) → Option α
  | .error _ => none
  | .ok o => o

/-- A list answer that yields no item: an empty list, or a NotFound error. -/
def yieldsNoItem : Except Error (List Unstructured) → Bool
  | .ok [] => true
  | .ok (_ :: _) => false
  | .error e => e.notFound

/-! ## A store with explicit state

The store below keeps its objects in an association list.  Get fails with NotFound exactly
when the key is absent, and Create inserts the object under its namespace and name.  Patch
documents are not interpreted: a Patch answers with the stored object. -/

/-- The place of an object in the store. -/
structure Key where
  gvr : GroupVersionResource
  ns : String
  name : String
deriving DecidableEq, Repr

/-- The state of the store: its objects by key. -/
abbrev MemState : Type := List (Key × Unstructured)

/-- The NotFound answer of the store. -/
def notFoundError (name : String) : Error :=
  { notFound := true, message := name ++ " not found" }

/-- The answer of the store to a Create whose object names another namespace. -/
def badRequestError : Error :=
  { notFound := false,
    message := "the namespace of the provided object does not match the namespace sent on the request" }

/-- The answer of the store to a Create on a key already present. -/
def alreadyExistsError (name : String) : Error :=
  { notFound := false, message := name ++ " already exists" }

/-- The dynamic client of the store with explicit state. -/
def memClient : Interface MemState where
  list gvr ns s :=
    (.ok ((s.filter (fun kv => decide (kv.1.gvr = gvr ∧ (ns = "" ∨ kv.1.ns = ns)))).map
      Prod.snd), s)
  get gvr ns name s :=
    match s.lookup ⟨gvr, ns, name⟩ with
    | some u => (.ok u, s)
    | none => (.error (notFoundError name), s)
  create gvr ns obj s :=
    if obj.GetNamespace ≠ ns then (.error badRequestError, s)
    else
      match s.lookup ⟨gvr, ns, obj.GetName⟩ with
      | some _ => (.error (alreadyExistsError obj.GetName), s)
      | none => (.ok obj, s ++ [(⟨gvr, ns, obj.GetName⟩, obj)])
  patch gvr ns name _ _ s :=
    match s.lookup ⟨gvr, ns, name⟩ with
    | some u => (.ok u, s)
    | none => (.error (notFoundError name), s)
  delete gvr ns name s :=
    match s.lookup ⟨gvr, ns, name⟩ with
    | some _ => (none, s.filter (fun kv => decide (kv.1 ≠ ⟨gvr, ns, name⟩)))
    | none => (some (notFoundError name), s)

/-- The Forbidden error of a hub that refuses every request; it is not a NotFound error. -/
def forbiddenError : Error :=
  { notFound := false, message := "forbidden: User cannot access the resource" }

/-- The client of a hub that answers every verb with `forbiddenError`. -/
def forbiddenClient : Interface Unit where
  list _ _ s := (.error forbiddenError, s)
  get _ _ _ s := (.error forbiddenError, s)
  create _ _ _ s := (.error forbiddenError, s)
  patch _ _ _ _ _ s := (.error forbiddenError, s)
  delete _ _ _ s := (some forbiddenError, s)

/-! ## A sample converter -/

/-- A string field of an untyped object: empty when missing or null. -/
def strField (o : List (String × Value)) (f : String) : Except String String :=
  match o.lookup f with
  | none => .ok ""
  | some Value.null => .ok ""
  | some (Value.str s) => .ok s
  | some _ => .error ("cannot convert field " ++ f ++ " to string")

/-- An object field of an untyped object: empty when missing or null. -/
def objField (o : List (String × Value)) (f : String) : Except String (List (String × Value)) :=
  match o.lookup f with
  | none => .ok []
  | some Value.null => .ok []
  | some (Value.obj m) => .ok m
  | some _ => .error ("cannot convert field " ++ f ++ " to struct")

/-- The typed form of one untyped condition. -/
def decodeCondition : Value → Except String Condition
  | Value.obj m =>
    match strField m "type", strField m "status" with
    | .ok t, .ok st => .ok { Type_ := t, Status := st }
    | .error e, _ => .error e
    | _, .error e => .error e
  | _ => .error "cannot convert condition to struct"

/-- The typed form of a list of untyped conditions. -/
def decodeConditions : List Value → Except String (List Condition)
  | [] => .ok []
  | v :: vs =>
    match decodeCondition v, decodeConditions vs with
    | .ok c, .ok cs => .ok (c :: cs)
    | .error e, _ => .error e
    | _, .error e => .error e

/-- The conditions under the status of an untyped add-on. -/
def decodeStatus (o : List (String × Value)) : Except String (List Condition) :=
  match o.lookup "conditions" with
  | none => .ok []
  | some Value.null => .ok []
  | some (Value.arr items) => decodeConditions items
  | some _ => .error "cannot convert conditions to slice"

/-- A converter that reads the fields of the typed add-on kept in this development. -/
def sampleConverter : UnstructuredConverter where
  FromUnstructured u :=
    match strField u.Object "kind", strField u.Object "apiVersion",
        objField u.Object "metadata", objField u.Object "spec", objField u.Object "status" with
    | .ok kind, .ok apiVersion, .ok metadata, .ok spec, .ok status =>
      match strField metadata "name", strField metadata "namespace",
          strField spec "installNamespace", decodeStatus status with
      | .ok name, .ok ns, .ok installNamespace, .ok conditions =>
        .ok { typeMeta := { Kind := kind, APIVersion := apiVersion },
              objectMeta := { Name := name, Namespace := ns },
              Spec := { InstallNamespace := installNamespace },
              Status := { Conditions := conditions } }
      | _, _, _, _ => .error "cannot convert object to ManagedClusterAddOn"
    | _, _, _, _, _ => .error "cannot convert object to ManagedClusterAddOn"

/-- A hub object named hub1 in namespace ocm. -/
def hub1 : Unstructured :=
  { Object := [ ("kind", Value.str "MultiClusterHub"),
                ("metadata", Value.obj [("name", Value.str "hub1"),
                                        ("namespace", Value.str "ocm")]) ] }

/-- An engine object named engine1, cluster scoped. -/
def engine1 : Unstructured :=
  { Object := [ ("kind", Value.str "MultiClusterEngine"),
                ("metadata", Value.obj [("name", Value.str "engine1")]) ] }

/-- An add-on of cluster1 whose Available condition is True. -/
def availableAddon : Unstructured :=
  { Object := [ ("kind", Value.str "ManagedClusterAddOn"),
                ("metadata", Value.obj [("name", Value.str "managed-serviceaccount"),
                                        ("namespace", Value.str "cluster1")]),
                ("status", Value.obj [("conditions", Value.arr
                  [ Value.obj [("type", Value.str "Progressing"), ("status", Value.str "False")],
                    Value.obj [("type", Value.str "Available"), ("status", Value.str "True")] ])]) ] }

/-! ## Shared lemmas -/

theorem callsSince_append {σ : Type} (w : Hub σ) (s : σ) (cs : List Call) :
    callsSince w { state := s, calls := w.calls ++ cs } = cs := by
  simp [callsSince]

theorem GetManagedServiceAccountAddon_fst {σ : Type} (conv : UnstructuredConverter)
    (c : Interface σ) (mc : ManagedCluster) (w : Hub σ) :
    (GetManagedServiceAccountAddon conv c mc w).1 =
      match (c.get gvrAddon mc.Name "managed-serviceaccount" w.state).1 with
      | .error err => .error err
      | .ok u => unstructuredToManagedClusterAddon conv u := by
  unfold GetManagedServiceAccountAddon Interface.Get
  cases h : (c.get gvrAddon mc.Name "managed-serviceaccount" w.state).1 with
  | error e => simp
  | ok u =>
    simp only []
    cases h2 : unstructuredToManagedClusterAddon conv u <;> simp

theorem GetManagedServiceAccountAddon_snd {σ : Type} (conv : UnstructuredConverter)
    (c : Interface σ) (mc : ManagedCluster) (w : Hub σ) :
    (GetManagedServiceAccountAddon conv c mc w).2 =
      { state := (c.get gvrAddon mc.Name "managed-serviceaccount" w.state).2,
        calls := w.calls ++ [Call.Get gvrAddon mc.Name "managed-serviceaccount"] } := by
  unfold GetManagedServiceAccountAddon Interface.Get
  cases h : (c.get gvrAddon mc.Name "managed-serviceaccount" w.state).1 with
  | error e => simp
  | ok u =>
    simp only []
    cases h2 : unstructuredToManagedClusterAddon conv u <;> simp

theorem unstructuredToManagedClusterAddon_error_notFound (conv : UnstructuredConverter)
    (u : Unstructured) (e : Error) (h : unstructuredToManagedClusterAddon conv u = .error e) :
    e.notFound = false := by
  unfold unstructuredToManagedClusterAddon at h
  cases h2 : conv.FromUnstructured u with
  | error msg =>
    rw [h2] at h
    simp only [Except.error.injEq] at h
    rw [← h]; rfl
  | ok a => rw [h2] at h; cases h

theorem GetManagedServiceAccountAddon_notFound_iff {σ : Type} (conv : UnstructuredConverter)
    (c : Interface σ) (mc : ManagedCluster) (w : Hub σ) (e : Error) (he : e.notFound = true) :
    (GetManagedServiceAccountAddon conv c mc w).1 = .error e ↔
      (c.get gvrAddon mc.Name "managed-serviceaccount" w.state).1 = .error e := by
  rw [GetManagedServiceAccountAddon_fst]
  cases h : (c.get gvrAddon mc.Name "managed-serviceaccount" w.state).1 with
  | error e2 => simp
  | ok u =>
    simp only []
    constructor
    · intro h2
      have := unstructuredToManagedClusterAddon_error_notFound conv u e h2
      rw [he] at this; cases this
    · intro h2; cases h2

theorem CreateManagedServiceAccountAddon_of_ok {σ : Type} (conv : UnstructuredConverter)
    (c : Interface σ) (mc : ManagedCluster) (w : Hub σ) (a : ManagedClusterAddOn)
    (h : (GetManagedServiceAccountAddon conv c mc w).1 = .ok a) :
    CreateManagedServiceAccountAddon conv c mc w =
      (.ok (some a), (GetManagedServiceAccountAddon conv c mc w).2) := by
  unfold CreateManagedServiceAccountAddon
  rcases hg : GetManagedServiceAccountAddon conv c mc w with ⟨r, w1⟩
  rw [hg] at h
  simp only at h
  subst h
  simp [errOf, IsNotFound]

theorem CreateManagedServiceAccountAddon_of_other {σ : Type} (conv : UnstructuredConverter)
    (c : Interface σ) (mc : ManagedCluster) (w : Hub σ) (e : Error)
    (h : (GetManagedServiceAccountAddon conv c mc w).1 = .error e) (he : e.notFound = false) :
    CreateManagedServiceAccountAddon conv c mc w =
      (.ok none, (GetManagedServiceAccountAddon conv c mc w).2) := by
  unfold CreateManagedServiceAccountAddon
  rcases hg : GetManagedServiceAccountAddon conv c mc w with ⟨r, w1⟩
  rw [hg] at h
  simp only at h
  subst h
  simp [errOf, IsNotFound, he]

theorem CreateManagedServiceAccountAddon_of_notFound {σ : Type} (conv : UnstructuredConverter)
    (c : Interface σ) (mc : ManagedCluster) (w : Hub σ) (e : Error)
    (h : (GetManagedServiceAccountAddon conv c mc w).1 = .error e) (he : e.notFound = true) :
    ∃ u, toUnstructured (newManagedServiceAccountAddon mc) = .ok u ∧
      (CreateManagedServiceAccountAddon conv c mc w).2 =
        { state := (c.create gvrAddon mc.Name u
            (c.get gvrAddon mc.Name "managed-serviceaccount" w.state).2).2,
          calls := w.calls ++ [Call.Get gvrAddon mc.Name "managed-serviceaccount",
            Call.Create gvrAddon mc.Name u] } ∧
      (CreateManagedServiceAccountAddon conv c mc w).1 =
        match (c.create gvrAddon mc.Name u
            (c.get gvrAddon mc.Name "managed-serviceaccount" w.state).2).1 with
        | .error err => .error err
        | .ok created =>
          match unstructuredToManagedClusterAddon conv created with
          | .error err => .error err
          | .ok a => .ok (some a) := by
  refine ⟨_, rfl, ?_⟩
  have h2 := GetManagedServiceAccountAddon_snd conv c mc w
  unfold CreateManagedServiceAccountAddon
  rcases hg : GetManagedServiceAccountAddon conv c mc w with ⟨r, w1⟩
  rw [hg] at h h2
  simp only at h h2
  subst h
  subst h2
  simp only [errOf, IsNotFound, he, if_true, toUnstructured, Interface.Create]
  cases hc : (c.create gvrAddon mc.Name _
      (c.get gvrAddon mc.Name "managed-serviceaccount" w.state).2).1 with
  | error err => simp
  | ok created =>
    simp only []
    cases hu : unstructuredToManagedClusterAddon conv created <;> simp

theorem toUnstructured_names (a : ManagedClusterAddOn) (u : Unstructured)
    (h : toUnstructured a = .ok u) :
    u.GetName = a.objectMeta.Name ∧ u.GetNamespace = a.objectMeta.Namespace := by
  unfold toUnstructured at h
  simp only [Except.ok.injEq] at h
  subst h
  constructor <;>
    simp [Unstructured.GetName, Unstructured.GetNamespace, nestedString, List.lookup]

theorem lookup_append_new (s : MemState) (k : Key) (u : Unstructured)
    (h : s.lookup k = none) : (s ++ [(k, u)]).lookup k = some u := by
  induction s with
  | nil => simp [List.lookup]
  | cons kv rest ih =>
    obtain ⟨k2, v2⟩ := kv
    simp only [List.cons_append]
    by_cases hk : k = k2
    · subst hk
      simp [List.lookup] at h
    · have hb : (k == k2) = false := by simpa using hk
      rw [List.lookup, hb] at h
      simp only [List.lookup, hb]
      exact ih h

theorem availableLoop_iff (conds : List Condition) :
    availableLoop conds = true ↔
      ∃ cond ∈ conds, cond.Type_ = ManagedClusterAddOnConditionAvailable ∧
        cond.Status = "True" := by
  induction conds with
  | nil => simp [availableLoop]
  | cons cond rest ih =>
    unfold availableLoop
    by_cases ht : cond.Type_ = ManagedClusterAddOnConditionAvailable
    · by_cases hs : cond.Status = "True"
      · simp [ht, hs]
      · simp [ht, hs, ih]
    · simp [ht, ih]

theorem DoesManagedServiceAccountAddonExist_fst {σ : Type} (conv : UnstructuredConverter)
    (c : Interface σ) (mc : ManagedCluster) (w : Hub σ) :
    (DoesManagedServiceAccountAddonExist conv c mc w).1 =
      !IsNotFound (errOf (GetManagedServiceAccountAddon conv c mc w).1) := by
  unfold DoesManagedServiceAccountAddonExist
  rcases GetManagedServiceAccountAddon conv c mc w with ⟨r, w1⟩
  simp only
  split <;> simp_all

theorem IsManagedServiceAccountAddonAvailable_fst {σ : Type} (conv : UnstructuredConverter)
    (c : Interface σ) (mc : ManagedCluster) (w : Hub σ) :
    (IsManagedServiceAccountAddonAvailable conv c mc w).1 =
      match (GetManagedServiceAccountAddon conv c mc w).1 with
      | .error _ => false
      | .ok a => availableLoop a.Status.Conditions := by
  unfold IsManagedServiceAccountAddonAvailable
  rcases GetManagedServiceAccountAddon conv c mc w with ⟨r, w1⟩
  cases r <;> rfl

theorem GetMultiClusterHub_snd {σ : Type} (c : Interface σ) (w : Hub σ) :
    (GetMultiClusterHub c w).2 =
      { state := (c.list gvrMCH "" w.state).2, calls := w.calls ++ [Call.List gvrMCH ""] } := by
  unfold GetMultiClusterHub Interface.List
  cases (c.list gvrMCH "" w.state).1 with
  | error e => simp only []; split <;> rfl
  | ok l => simp only []; split <;> rfl

theorem GetMultiClusterHub_fst {σ : Type} (c : Interface σ) (w : Hub σ) :
    (GetMultiClusterHub c w).1 =
      match (c.list gvrMCH "" w.state).1 with
      | .error e => if e.notFound = true then .ok none else .error e
      | .ok l => .ok l.head? := by
  unfold GetMultiClusterHub Interface.List
  cases (c.list gvrMCH "" w.state).1 with
  | error e => simp only [IsNotFound]; split <;> rfl
  | ok l =>
    cases l with
    | nil => simp
    | cons first rest => simp

theorem GetMultiClusterHub_of_noItem {σ : Type} (c : Interface σ) (w : Hub σ)
    (h : yieldsNoItem (c.list gvrMCH "" w.state).1 = true) :
    GetMultiClusterHub c w =
      (.ok none, { state := (c.list gvrMCH "" w.state).2,
                   calls := w.calls ++ [Call.List gvrMCH ""] }) := by
  have h1 := GetMultiClusterHub_fst c w
  have h2 := GetMultiClusterHub_snd c w
  rcases hg : GetMultiClusterHub c w with ⟨r, w1⟩
  rw [hg] at h1 h2
  simp only at h1 h2
  subst h2
  cases hl : (c.list gvrMCH "" w.state).1 with
  | error e =>
    rw [hl] at h h1
    simp only [yieldsNoItem] at h
    simp only [h, if_true] at h1
    rw [h1]
  | ok l =>
    rw [hl] at h h1
    cases l with
    | nil => simp only [List.head?] at h1; rw [h1]
    | cons first rest => simp [yieldsNoItem] at h

theorem GetMultiClusterHub_of_cons {σ : Type} (c : Interface σ) (w : Hub σ)
    (hub : Unstructured) (rest : List Unstructured)
    (h : (c.list gvrMCH "" w.state).1 = .ok (hub :: rest)) :
    GetMultiClusterHub c w =
      (.ok (some hub), { state := (c.list gvrMCH "" w.state).2,
                         calls := w.calls ++ [Call.List gvrMCH ""] }) := by
  have h1 := GetMultiClusterHub_fst c w
  have h2 := GetMultiClusterHub_snd c w
  rcases hg : GetMultiClusterHub c w with ⟨r, w1⟩
  rw [hg] at h1 h2
  simp only at h1 h2
  subst h2
  rw [h] at h1
  simp only [List.head?] at h1
  rw [h1]

theorem GetMultiClusterEngine_eq {σ : Type} (c : Interface σ) (w : Hub σ) :
    GetMultiClusterEngine c w =
      ((match (c.list gvrMCE "" w.state).1 with
        | .error err => .error err
        | .ok [] => .error (Errorf "MulticlusterEngine CR not found.")
        | .ok (first :: _) => .ok first),
       { state := (c.list gvrMCE "" w.state).2, calls := w.calls ++ [Call.List gvrMCE ""] }) := by
  unfold GetMultiClusterEngine Interface.List
  cases (c.list gvrMCE "" w.state).1 with
  | error e => rfl
  | ok l => cases l <;> rfl

theorem EnableManagedServiceAccountFeature_of_hub {σ : Type} (c : Interface σ) (w : Hub σ)
    (hub : Unstructured) (rest : List Unstructured)
    (h : (c.list gvrMCH "" w.state).1 = .ok (hub :: rest)) :
    EnableManagedServiceAccountFeature c w =
      (errOf (c.patch gvrMCH hub.GetNamespace hub.GetName PatchType.JSONPatchType patch
          (c.list gvrMCH "" w.state).2).1,
       { state := (c.patch gvrMCH hub.GetNamespace hub.GetName PatchType.JSONPatchType patch
          (c.list gvrMCH "" w.state).2).2,
         calls := w.calls ++ [Call.List gvrMCH "",
           Call.Patch gvrMCH hub.GetNamespace hub.GetName PatchType.JSONPatchType patch] }) := by
  unfold EnableManagedServiceAccountFeature
  rw [GetMultiClusterHub_of_cons c w hub rest h]
  simp only [Interface.Patch, patchErr]
  cases (c.patch gvrMCH hub.GetNamespace hub.GetName PatchType.JSONPatchType patch
      (c.list gvrMCH "" w.state).2).1 <;> simp [errOf]

theorem EnableManagedServiceAccountFeature_of_engine {σ : Type} (c : Interface σ) (w : Hub σ)
    (mce : Unstructured) (rest : List Unstructured)
    (hmch : yieldsNoItem (c.list gvrMCH "" w.state).1 = true)
    (hmce : (c.list gvrMCE "" (c.list gvrMCH "" w.state).2).1 = .ok (mce :: rest)) :
    EnableManagedServiceAccountFeature c w =
      (errOf (c.patch gvrMCE "" mce.GetName PatchType.JSONPatchType patch
          (c.list gvrMCE "" (c.list gvrMCH "" w.state).2).2).1,
       { state := (c.patch gvrMCE "" mce.GetName PatchType.JSONPatchType patch
          (c.list gvrMCE "" (c.list gvrMCH "" w.state).2).2).2,
         calls := w.calls ++ [Call.List gvrMCH "", Call.List gvrMCE "",
           Call.Patch gvrMCE "" mce.GetName PatchType.JSONPatchType patch] }) := by
  unfold EnableManagedServiceAccountFeature
  rw [GetMultiClusterHub_of_noItem c w hmch]
  simp only [GetMultiClusterEngine_eq, hmce, Interface.Patch, patchErr]
  cases (c.patch gvrMCE "" mce.GetName PatchType.JSONPatchType patch
      (c.list gvrMCE "" (c.list gvrMCH "" w.state).2).2).1 <;> simp [errOf]

theorem EnableManagedServiceAccountFeature_of_none {σ : Type} (c : Interface σ) (w : Hub σ)
    (hmch : yieldsNoItem (c.list gvrMCH "" w.state).1 = true)
    (hmce : yieldsNoItem (c.list gvrMCE "" (c.list gvrMCH "" w.state).2).1 = true) :
    EnableManagedServiceAccountFeature c w =
      (some (match (c.list gvrMCE "" (c.list gvrMCH "" w.state).2).1 with
        | .error err => err
        | .ok _ => Errorf "MulticlusterEngine CR not found."),
       { state := (c.list gvrMCE "" (c.list gvrMCH "" w.state).2).2,
         calls := w.calls ++ [Call.List gvrMCH "", Call.List gvrMCE ""] }) := by
  unfold EnableManagedServiceAccountFeature
  rw [GetMultiClusterHub_of_noItem c w hmch]
  simp only [GetMultiClusterEngine_eq]
  cases hl : (c.list gvrMCE "" (c.list gvrMCH "" w.state).2).1 with
  | error e => simp
  | ok l =>
    rw [hl] at hmce
    cases l with
    | nil => simp
    | cons first rest => simp [yieldsNoItem] at hmce

/-! ## Claims -/

/-- C1, evaluated at the failing input: on a hub that answers the existence check with a
Forbidden error, which is not NotFound, `CreateManagedServiceAccountAddon` returns no object
and no error after its single Get, where the claim has it return the Forbidden error. -/
theorem CreateManagedServiceAccountAddon_drops_fetch_error :
    (GetManagedServiceAccountAddon sampleConverter forbiddenClient ⟨"cluster1"⟩ ⟨(), []⟩).1
        = .error forbiddenError ∧
      IsNotFound (some forbiddenError) = false ∧
      (CreateManagedServiceAccountAddon sampleConverter forbiddenClient ⟨"cluster1"⟩
        ⟨(), []⟩).1 = .ok none ∧
      (CreateManagedServiceAccountAddon sampleConverter forbiddenClient ⟨"cluster1"⟩
        ⟨(), []⟩).2.calls = [Call.Get gvrAddon "cluster1" "managed-serviceaccount"] :=
  ⟨rfl, rfl, rfl, rfl⟩

/-- C2: `CreateManagedServiceAccountAddon` issues a Create call exactly when its existence
check fails with a NotFound error; when the check fails with another error it issues only the
Get; and when the check succeeds it issues only the Get and returns the fetched object with
no error. -/
theorem CreateManagedServiceAccountAddon_create_iff_notFound {σ : Type}
    (conv : UnstructuredConverter) (c : Interface σ) (mc : ManagedCluster) (w : Hub σ) :
    ((callsSince w (CreateManagedServiceAccountAddon conv c mc w).2).any Call.isCreate = true ↔
        ∃ e, (GetManagedServiceAccountAddon conv c mc w).1 = .error e ∧ e.notFound = true) ∧
      (∀ e, (GetManagedServiceAccountAddon conv c mc w).1 = .error e → e.notFound = false →
        callsSince w (CreateManagedServiceAccountAddon conv c mc w).2 =
          [Call.Get gvrAddon mc.Name "managed-serviceaccount"]) ∧
      (∀ a, (GetManagedServiceAccountAddon conv c mc w).1 = .ok a →
        callsSince w (CreateManagedServiceAccountAddon conv c mc w).2 =
          [Call.Get gvrAddon mc.Name "managed-serviceaccount"] ∧
        (CreateManagedServiceAccountAddon conv c mc w).1 = .ok (some a) ∧
        (CreateManagedServiceAccountAddon conv c mc w).2 =
          (GetManagedServiceAccountAddon conv c mc w).2) := by
  have hother : ∀ e, (GetManagedServiceAccountAddon conv c mc w).1 = .error e →
      e.notFound = false →
      callsSince w (CreateManagedServiceAccountAddon conv c mc w).2 =
        [Call.Get gvrAddon mc.Name "managed-serviceaccount"] := by
    intro e h he
    rw [CreateManagedServiceAccountAddon_of_other conv c mc w e h he,
      GetManagedServiceAccountAddon_snd, callsSince_append]
  have hok : ∀ a, (GetManagedServiceAccountAddon conv c mc w).1 = .ok a →
      callsSince w (CreateManagedServiceAccountAddon conv c mc w).2 =
        [Call.Get gvrAddon mc.Name "managed-serviceaccount"] ∧
      (CreateManagedServiceAccountAddon conv c mc w).1 = .ok (some a) ∧
      (CreateManagedServiceAccountAddon conv c mc w).2 =
        (GetManagedServiceAccountAddon conv c mc w).2 := by
    intro a h
    rw [CreateManagedServiceAccountAddon_of_ok conv c mc w a h,
      GetManagedServiceAccountAddon_snd, callsSince_append]
    exact ⟨rfl, rfl, rfl⟩
  refine ⟨?_, hother, hok⟩
  cases h : (GetManagedServiceAccountAddon conv c mc w).1 with
  | ok a =>
    rw [(hok a h).1]
    simp [Call.isCreate]
  | error e =>
    cases he : e.notFound with
    | false =>
      rw [hother e h he]
      simp [Call.isCreate, he]
    | true =>
      obtain ⟨u, _, hcalls, _⟩ := CreateManagedServiceAccountAddon_of_notFound conv c mc w e h he
      rw [hcalls, callsSince_append]
      simp [Call.isCreate, he]

/-- C3: on the store with explicit state, for a managed cluster whose add-on is absent, a
second call of `CreateManagedServiceAccountAddon` leaves the store as the first call left it,
issues a Get and no Create, and returns the same object as the first call, which did issue
the Create. -/
theorem CreateManagedServiceAccountAddon_idempotent (conv : UnstructuredConverter)
    (mc : ManagedCluster) (s : MemState) (log : List Call)
    (habsent : s.lookup ⟨gvrAddon, mc.Name, "managed-serviceaccount"⟩ = none) :
    (CreateManagedServiceAccountAddon conv memClient mc
        (CreateManagedServiceAccountAddon conv memClient mc ⟨s, log⟩).2).2.state =
      (CreateManagedServiceAccountAddon conv memClient mc ⟨s, log⟩).2.state ∧
    callsSince (CreateManagedServiceAccountAddon conv memClient mc ⟨s, log⟩).2
        (CreateManagedServiceAccountAddon conv memClient mc
          (CreateManagedServiceAccountAddon conv memClient mc ⟨s, log⟩).2).2 =
      [Call.Get gvrAddon mc.Name "managed-serviceaccount"] ∧
    (callsSince (CreateManagedServiceAccountAddon conv memClient mc ⟨s, log⟩).2
        (CreateManagedServiceAccountAddon conv memClient mc
          (CreateManagedServiceAccountAddon conv memClient mc ⟨s, log⟩).2).2).any
      Call.isCreate = false ∧
    objOf (CreateManagedServiceAccountAddon conv memClient mc
        (CreateManagedServiceAccountAddon conv memClient mc ⟨s, log⟩).2).1 =
      objOf (CreateManagedServiceAccountAddon conv memClient mc ⟨s, log⟩).1 ∧
    (callsSince ⟨s, log⟩ (CreateManagedServiceAccountAddon conv memClient mc ⟨s, log⟩).2).any
      Call.isCreate = true := by
  have hget : (memClient.get gvrAddon mc.Name "managed-serviceaccount" s) =
      (.error (notFoundError "managed-serviceaccount"), s) := by
    simp [memClient, habsent]
  have hfetch : (GetManagedServiceAccountAddon conv memClient mc ⟨s, log⟩).1 =
      .error (notFoundError "managed-serviceaccount") := by
    rw [GetManagedServiceAccountAddon_fst]
    simp only [hget]
  obtain ⟨u, hu, hstate, hres⟩ := CreateManagedServiceAccountAddon_of_notFound conv memClient mc
    ⟨s, log⟩ (notFoundError "managed-serviceaccount") hfetch rfl
  obtain ⟨hname, hns⟩ := toUnstructured_names _ u hu
  simp only [newManagedServiceAccountAddon] at hname hns
  have hcreate : memClient.create gvrAddon mc.Name u s =
      (.ok u, s ++ [(⟨gvrAddon, mc.Name, "managed-serviceaccount"⟩, u)]) := by
    simp [memClient, hname, hns, habsent]
  simp only [hget, hcreate] at hstate hres
  generalize CreateManagedServiceAccountAddon conv memClient mc ⟨s, log⟩ = once at hstate hres
  obtain ⟨r1, w1⟩ := once
  simp only at hstate hres
  subst hstate
  have hget2 : memClient.get gvrAddon mc.Name "managed-serviceaccount"
      (s ++ [(⟨gvrAddon, mc.Name, "managed-serviceaccount"⟩, u)]) =
      (.ok u, s ++ [(⟨gvrAddon, mc.Name, "managed-serviceaccount"⟩, u)]) := by
    simp [memClient, lookup_append_new s _ u habsent]
  have hfetch2 := GetManagedServiceAccountAddon_fst conv memClient mc
    ⟨s ++ [(⟨gvrAddon, mc.Name, "managed-serviceaccount"⟩, u)],
      log ++ [Call.Get gvrAddon mc.Name "managed-serviceaccount",
        Call.Create gvrAddon mc.Name u]⟩
  have hsnd2 := GetManagedServiceAccountAddon_snd conv memClient mc
    ⟨s ++ [(⟨gvrAddon, mc.Name, "managed-serviceaccount"⟩, u)],
      log ++ [Call.Get gvrAddon mc.Name "managed-serviceaccount",
        Call.Create gvrAddon mc.Name u]⟩
  simp only [hget2] at hfetch2 hsnd2
  have hfirst : (callsSince ⟨s, log⟩
      ⟨s ++ [(⟨gvrAddon, mc.Name, "managed-serviceaccount"⟩, u)],
        log ++ [Call.Get gvrAddon mc.Name "managed-serviceaccount",
          Call.Create gvrAddon mc.Name u]⟩).any Call.isCreate = true := by
    simp [callsSince, Call.isCreate]
  cases hconv : unstructuredToManagedClusterAddon conv u with
  | error e =>
    have he := unstructuredToManagedClusterAddon_error_notFound conv u e hconv
    rw [hconv] at hfetch2 hres
    simp only at hres
    rw [CreateManagedServiceAccountAddon_of_other conv memClient mc _ e hfetch2 he, hsnd2]
    subst hres
    refine ⟨rfl, ?_, ?_, rfl, hfirst⟩ <;> simp [callsSince, Call.isCreate]
  | ok a =>
    rw [hconv] at hfetch2 hres
    simp only at hres
    rw [CreateManagedServiceAccountAddon_of_ok conv memClient mc _ a hfetch2, hsnd2]
    subst hres
    refine ⟨rfl, ?_, ?_, rfl, hfirst⟩ <;> simp [callsSince, Call.isCreate]

/-- C3, witnessed on the empty store for the managed cluster cluster1. -/
theorem CreateManagedServiceAccountAddon_idempotent_witness :
    ([] : MemState).lookup ⟨gvrAddon, "cluster1", "managed-serviceaccount"⟩ = none ∧
    (CreateManagedServiceAccountAddon sampleConverter memClient ⟨"cluster1"⟩
        (CreateManagedServiceAccountAddon sampleConverter memClient ⟨"cluster1"⟩
          ⟨[], []⟩).2).2.state =
      (CreateManagedServiceAccountAddon sampleConverter memClient ⟨"cluster1"⟩
        ⟨[], []⟩).2.state ∧
    objOf (CreateManagedServiceAccountAddon sampleConverter memClient ⟨"cluster1"⟩
        (CreateManagedServiceAccountAddon sampleConverter memClient ⟨"cluster1"⟩
          ⟨[], []⟩).2).1 =
      objOf (CreateManagedServiceAccountAddon sampleConverter memClient ⟨"cluster1"⟩
        ⟨[], []⟩).1 :=
  ⟨rfl,
    (CreateManagedServiceAccountAddon_idempotent sampleConverter ⟨"cluster1"⟩ [] [] rfl).1,
    (CreateManagedServiceAccountAddon_idempotent sampleConverter ⟨"cluster1"⟩ [] [] rfl).2.2.2.1⟩

/-- C4: `DoesManagedServiceAccountAddonExist` returns false exactly when the fetch of the
add-on named managed-serviceaccount in the namespace of the managed cluster fails with a
NotFound error, whether the fetch is read as the Get on the store or as
`GetManagedServiceAccountAddon`; it returns true when the fetch succeeds and when the fetch
fails with an error that is not NotFound. -/
theorem DoesManagedServiceAccountAddonExist_false_iff {σ : Type}
    (conv : UnstructuredConverter) (c : Interface σ) (mc : ManagedCluster) (w : Hub σ) :
    ((DoesManagedServiceAccountAddonExist conv c mc w).1 = false ↔
        ∃ e, (c.get gvrAddon mc.Name "managed-serviceaccount" w.state).1 = .error e ∧
          e.notFound = true) ∧
      ((DoesManagedServiceAccountAddonExist conv c mc w).1 = false ↔
        ∃ e, (GetManagedServiceAccountAddon conv c mc w).1 = .error e ∧ e.notFound = true) ∧
      (∀ a, (GetManagedServiceAccountAddon conv c mc w).1 = .ok a →
        (DoesManagedServiceAccountAddonExist conv c mc w).1 = true) ∧
      (∀ e, (GetManagedServiceAccountAddon conv c mc w).1 = .error e → e.notFound = false →
        (DoesManagedServiceAccountAddonExist conv c mc w).1 = true) := by
  have hiff : (DoesManagedServiceAccountAddonExist conv c mc w).1 = false ↔
      ∃ e, (GetManagedServiceAccountAddon conv c mc w).1 = .error e ∧ e.notFound = true := by
    rw [DoesManagedServiceAccountAddonExist_fst]
    cases (GetManagedServiceAccountAddon conv c mc w).1 <;> simp [errOf, IsNotFound]
  refine ⟨?_, hiff, ?_, ?_⟩
  · rw [hiff]
    constructor
    · rintro ⟨e, h, he⟩
      exact ⟨e, (GetManagedServiceAccountAddon_notFound_iff conv c mc w e he).1 h, he⟩
    · rintro ⟨e, h, he⟩
      exact ⟨e, (GetManagedServiceAccountAddon_notFound_iff conv c mc w e he).2 h, he⟩
  · intro a h
    rw [DoesManagedServiceAccountAddonExist_fst, h]
    rfl
  · intro e h he
    rw [DoesManagedServiceAccountAddonExist_fst, h]
    simp [errOf, IsNotFound, he]

/-- C5: `IsManagedServiceAccountAddonAvailable` returns true exactly when the fetch of the
add-on succeeds and its conditions hold one of the Available type whose status is the string
True; it returns false on every fetch error, on an empty list of conditions, and when every
condition of the Available type has another status. -/
theorem IsManagedServiceAccountAddonAvailable_iff {σ : Type}
    (conv : UnstructuredConverter) (c : Interface σ) (mc : ManagedCluster) (w : Hub σ) :
    ((IsManagedServiceAccountAddonAvailable conv c mc w).1 = true ↔
        ∃ a, (GetManagedServiceAccountAddon conv c mc w).1 = .ok a ∧
          ∃ cond ∈ a.Status.Conditions,
            cond.Type_ = ManagedClusterAddOnConditionAvailable ∧ cond.Status = "True") ∧
      (∀ e, (GetManagedServiceAccountAddon conv c mc w).1 = .error e →
        (IsManagedServiceAccountAddonAvailable conv c mc w).1 = false) ∧
      (∀ a, (GetManagedServiceAccountAddon conv c mc w).1 = .ok a →
        a.Status.Conditions = [] →
        (IsManagedServiceAccountAddonAvailable conv c mc w).1 = false) ∧
      (∀ a, (GetManagedServiceAccountAddon conv c mc w).1 = .ok a →
        (∀ cond ∈ a.Status.Conditions,
          cond.Type_ = ManagedClusterAddOnConditionAvailable → cond.Status ≠ "True") →
        (IsManagedServiceAccountAddonAvailable conv c mc w).1 = false) ∧
      ManagedClusterAddOnConditionAvailable = "Available" := by
  have hiff : (IsManagedServiceAccountAddonAvailable conv c mc w).1 = true ↔
      ∃ a, (GetManagedServiceAccountAddon conv c mc w).1 = .ok a ∧
        ∃ cond ∈ a.Status.Conditions,
          cond.Type_ = ManagedClusterAddOnConditionAvailable ∧ cond.Status = "True" := by
    rw [IsManagedServiceAccountAddonAvailable_fst]
    cases (GetManagedServiceAccountAddon conv c mc w).1 with
    | error e => simp
    | ok a => simp [availableLoop_iff]
  refine ⟨hiff, ?_, ?_, ?_, rfl⟩
  · intro e h
    rw [IsManagedServiceAccountAddonAvailable_fst, h]
  · intro a h hnil
    rw [IsManagedServiceAccountAddonAvailable_fst, h]
    simp [hnil, availableLoop]
  · intro a h hall
    cases hv : (IsManagedServiceAccountAddonAvailable conv c mc w).1 with
    | false => rfl
    | true =>
      obtain ⟨a2, h2, cond, hmem, ht, hs⟩ := hiff.1 hv
      rw [h] at h2
      cases h2
      exact absurd hs (hall cond hmem ht)

/-- C6: when the list of MultiClusterHub resources yields no item and the list of
MultiClusterEngine resources yields no item, `EnableManagedServiceAccountFeature` returns a
non-nil error and issues the two List calls and no Patch call; on an empty engine list the
error is the package's own "not found" error. -/
theorem EnableManagedServiceAccountFeature_no_hub_config {σ : Type} (c : Interface σ)
    (w : Hub σ)
    (hmch : yieldsNoItem (c.list gvrMCH "" w.state).1 = true)
    (hmce : yieldsNoItem (c.list gvrMCE "" (c.list gvrMCH "" w.state).2).1 = true) :
    (EnableManagedServiceAccountFeature c w).1 ≠ none ∧
      (callsSince w (EnableManagedServiceAccountFeature c w).2).any Call.isPatch = false ∧
      callsSince w (EnableManagedServiceAccountFeature c w).2 =
        [Call.List gvrMCH "", Call.List gvrMCE ""] ∧
      ((c.list gvrMCE "" (c.list gvrMCH "" w.state).2).1 = .ok [] →
        (EnableManagedServiceAccountFeature c w).1 =
          some (Errorf "MulticlusterEngine CR not found.")) := by
  rw [EnableManagedServiceAccountFeature_of_none c w hmch hmce, callsSince_append]
  refine ⟨by simp, by simp [Call.isPatch], rfl, ?_⟩
  intro h
  simp only [h]

/-- C6, witnessed on the empty store. -/
theorem EnableManagedServiceAccountFeature_no_hub_config_witness :
    yieldsNoItem (memClient.list gvrMCH "" []).1 = true ∧
      yieldsNoItem (memClient.list gvrMCE "" (memClient.list gvrMCH "" []).2).1 = true ∧
      (EnableManagedServiceAccountFeature memClient ⟨[], []⟩).1 ≠ none ∧
      (callsSince ⟨[], []⟩ (EnableManagedServiceAccountFeature memClient ⟨[], []⟩).2).any
        Call.isPatch = false :=
  ⟨rfl, rfl,
    (EnableManagedServiceAccountFeature_no_hub_config memClient ⟨[], []⟩ rfl rfl).1,
    (EnableManagedServiceAccountFeature_no_hub_config memClient ⟨[], []⟩ rfl rfl).2.1⟩

/-- C7: when the list of MultiClusterHub resources is not empty,
`EnableManagedServiceAccountFeature` issues, after that List, exactly one Patch call: on
multiclusterhubs of group operator.open-cluster-management.io and version v1, in the
namespace and under the name of the first hub listed, of JSON patch type, with the fixed
document; and it returns the error of that Patch, nil when the Patch succeeds. -/
theorem EnableManagedServiceAccountFeature_patches_first_hub {σ : Type} (c : Interface σ)
    (w : Hub σ) (hub : Unstructured) (rest : List Unstructured)
    (h : (c.list gvrMCH "" w.state).1 = .ok (hub :: rest)) :
    callsSince w (EnableManagedServiceAccountFeature c w).2 =
        [Call.List gvrMCH "",
          Call.Patch gvrMCH hub.GetNamespace hub.GetName PatchType.JSONPatchType patch] ∧
      (callsSince w (EnableManagedServiceAccountFeature c w).2).filter Call.isPatch =
        [Call.Patch gvrMCH hub.GetNamespace hub.GetName PatchType.JSONPatchType patch] ∧
      (EnableManagedServiceAccountFeature c w).1 =
        errOf (c.patch gvrMCH hub.GetNamespace hub.GetName PatchType.JSONPatchType patch
          (c.list gvrMCH "" w.state).2).1 ∧
      gvrMCH = { Group := "operator.open-cluster-management.io", Version := "v1",
                 Resource := "multiclusterhubs" } ∧
      patch = "[\x7b\"op\":\"add\",\"path\":\"/spec/componentConfig\",\"value\":\x7b\"managedServiceAccount\":\x7b\"enable\":true\x7d\x7d\x7d]" := by
  rw [EnableManagedServiceAccountFeature_of_hub c w hub rest h, callsSince_append]
  refine ⟨rfl, by simp [Call.isPatch], rfl, rfl, by decide⟩

/-- C7, witnessed on a store holding one MultiClusterHub named hub1 in namespace ocm: the
Patch goes to multiclusterhubs, namespace ocm, name hub1. -/
theorem EnableManagedServiceAccountFeature_patches_first_hub_witness :
    (memClient.list gvrMCH "" [(⟨gvrMCH, "ocm", "hub1"⟩, hub1)]).1 = .ok [hub1] ∧
      callsSince ⟨[(⟨gvrMCH, "ocm", "hub1"⟩, hub1)], []⟩
        (EnableManagedServiceAccountFeature memClient
          ⟨[(⟨gvrMCH, "ocm", "hub1"⟩, hub1)], []⟩).2 =
        [Call.List gvrMCH "",
          Call.Patch gvrMCH "ocm" "hub1" PatchType.JSONPatchType patch] :=
  ⟨rfl, (EnableManagedServiceAccountFeature_patches_first_hub memClient
    ⟨[(⟨gvrMCH, "ocm", "hub1"⟩, hub1)], []⟩ hub1 [] rfl).1⟩

/-- C8: when the list of MultiClusterHub resources yields no item and the list of
MultiClusterEngine resources is not empty, `EnableManagedServiceAccountFeature` issues one
Patch call, on multiclusterengines of group multicluster.openshift.io and version v1, under
the name of the first engine listed and in the empty namespace, and no Patch call on
multiclusterhubs. -/
theorem EnableManagedServiceAccountFeature_falls_back_to_engine {σ : Type} (c : Interface σ)
    (w : Hub σ) (mce : Unstructured) (rest : List Unstructured)
    (hmch : yieldsNoItem (c.list gvrMCH "" w.state).1 = true)
    (hmce : (c.list gvrMCE "" (c.list gvrMCH "" w.state).2).1 = .ok (mce :: rest)) :
    callsSince w (EnableManagedServiceAccountFeature c w).2 =
        [Call.List gvrMCH "", Call.List gvrMCE "",
          Call.Patch gvrMCE "" mce.GetName PatchType.JSONPatchType patch] ∧
      (callsSince w (EnableManagedServiceAccountFeature c w).2).filter Call.isPatch =
        [Call.Patch gvrMCE "" mce.GetName PatchType.JSONPatchType patch] ∧
      (∀ ns name pt data, Call.Patch gvrMCH ns name pt data ∉
        callsSince w (EnableManagedServiceAccountFeature c w).2) ∧
      gvrMCE = { Group := "multicluster.openshift.io", Version := "v1",
                 Resource := "multiclusterengines" } := by
  rw [EnableManagedServiceAccountFeature_of_engine c w mce rest hmch hmce, callsSince_append]
  refine ⟨rfl, by simp [Call.isPatch], ?_, rfl⟩
  intro ns name pt data hmem
  have hne : gvrMCH ≠ gvrMCE := by decide
  simp only [List.mem_cons, List.mem_singleton, Call.Patch.injEq, reduceCtorEq, false_or,
    List.not_mem_nil, or_false] at hmem
  exact hne hmem.1

/-- C8, witnessed on a store holding one MultiClusterEngine named engine1 and no hub. -/
theorem EnableManagedServiceAccountFeature_falls_back_to_engine_witness :
    yieldsNoItem (memClient.list gvrMCH "" [(⟨gvrMCE, "", "engine1"⟩, engine1)]).1 = true ∧
      (memClient.list gvrMCE ""
        (memClient.list gvrMCH "" [(⟨gvrMCE, "", "engine1"⟩, engine1)]).2).1 =
        .ok [engine1] ∧
      callsSince ⟨[(⟨gvrMCE, "", "engine1"⟩, engine1)], []⟩
        (EnableManagedServiceAccountFeature memClient
          ⟨[(⟨gvrMCE, "", "engine1"⟩, engine1)], []⟩).2 =
        [Call.List gvrMCH "", Call.List gvrMCE "",
          Call.Patch gvrMCE "" "engine1" PatchType.JSONPatchType patch] :=
  ⟨rfl, rfl, (EnableManagedServiceAccountFeature_falls_back_to_engine memClient
    ⟨[(⟨gvrMCE, "", "engine1"⟩, engine1)], []⟩ engine1 [] rfl rfl).1⟩

/-- C9: `GetMultiClusterHub` issues one cluster-wide List of MultiClusterHub resources; it
returns no object and no error when the List fails with a NotFound error or gives an empty
list, no object and the error of the List when the List fails with another error, and the
first item and no error when the list is not empty. -/
theorem GetMultiClusterHub_results {σ : Type} (c : Interface σ) (w : Hub σ) :
    callsSince w (GetMultiClusterHub c w).2 = [Call.List gvrMCH ""] ∧
      (∀ e, (c.list gvrMCH "" w.state).1 = .error e → e.notFound = true →
        (GetMultiClusterHub c w).1 = .ok none) ∧
      ((c.list gvrMCH "" w.state).1 = .ok [] → (GetMultiClusterHub c w).1 = .ok none) ∧
      (∀ e, (c.list gvrMCH "" w.state).1 = .error e → e.notFound = false →
        (GetMultiClusterHub c w).1 = .error e) ∧
      (∀ first rest, (c.list gvrMCH "" w.state).1 = .ok (first :: rest) →
        (GetMultiClusterHub c w).1 = .ok (some first)) := by
  refine ⟨?_, ?_, ?_, ?_, ?_⟩
  · rw [GetMultiClusterHub_snd, callsSince_append]
  · intro e h he
    rw [GetMultiClusterHub_fst, h]
    simp [he]
  · intro h
    rw [GetMultiClusterHub_fst, h]
    rfl
  · intro e h he
    rw [GetMultiClusterHub_fst, h]
    simp [he]
  · intro first rest h
    rw [GetMultiClusterHub_fst, h]
    rfl

/-- C10: `DeleteManagedServiceAccountAddon` issues exactly one Delete call, for the name
managed-serviceaccount in the namespace named after the managed cluster, and returns the
answer of the store as it is; on the store with explicit state, an absent add-on thus gives
the NotFound error of the store and not nil. -/
theorem DeleteManagedServiceAccountAddon_returns_store_result {σ : Type} (c : Interface σ)
    (mc : ManagedCluster) (w : Hub σ) :
    callsSince w (DeleteManagedServiceAccountAddon c mc w).2 =
        [Call.Delete gvrAddon mc.Name "managed-serviceaccount"] ∧
      (DeleteManagedServiceAccountAddon c mc w).1 =
        (c.delete gvrAddon mc.Name "managed-serviceaccount" w.state).1 ∧
      (DeleteManagedServiceAccountAddon c mc w).2.state =
        (c.delete gvrAddon mc.Name "managed-serviceaccount" w.state).2 ∧
      (∀ (s : MemState) (log : List Call),
        s.lookup ⟨gvrAddon, mc.Name, "managed-serviceaccount"⟩ = none →
        (DeleteManagedServiceAccountAddon memClient mc ⟨s, log⟩).1 =
            some (notFoundError "managed-serviceaccount") ∧
          IsNotFound (DeleteManagedServiceAccountAddon memClient mc ⟨s, log⟩).1 = true) := by
  refine ⟨?_, rfl, rfl, ?_⟩
  · simp [DeleteManagedServiceAccountAddon, Interface.Delete, callsSince]
  · intro s log h
    simp [DeleteManagedServiceAccountAddon, Interface.Delete, memClient, h, IsNotFound,
      notFoundError]

end Utils
